import Mathlib

/-!
Verification of the extraction-context core of tracker-miners
(`src/libtracker-extract/tracker-extract-info.c`), shallowly embedded.

`GFile` handles and `TrackerResource` objects are opaque reference-counted
GObject pointers; we model each by a `Nat` identity and record the
reference-count operations the C code performs on them as an explicit
event trace (`REvent`), so that leak/double-free properties are statements
about how often `resUnref r` occurs in a run's trace.
-/

/-- Opaque identity of a `GFile` handle. -/
abbrev GFile := Nat

/-- Opaque identity of a `TrackerResource` object. -/
abbrev TrackerResource := Nat

/-- Reference-count relevant events emitted by the C code:
`g_object_ref`/`g_object_unref` on the resource and the file, and
`g_free` on owned strings (`none` models freeing a NULL string, a no-op
in GLib but recorded for fidelity to the call sites). -/
inductive REvent where
  | resRef (r : TrackerResource)
  | resUnref (r : TrackerResource)
  | fileRef (f : GFile)
  | fileUnref (f : GFile)
  | strFree (s : Option String)
  deriving DecidableEq

/-- The `_TrackerExtractInfo` struct. `mimetype` and `graph` are `gchar *`
that may be NULL (`g_strdup (NULL) = NULL`), hence `Option String`;
`content_id` is guaranteed non-NULL by the constructor's check.
`max_text` and `ref_count` are `gint`. -/
structure TrackerExtractInfo where
  resource : Option TrackerResource
  file : GFile
  content_id : String
  mimetype : Option String
  graph : Option String
  max_text : Int
  ref_count : Int
  deriving DecidableEq

/-- `tracker_extract_info_new`. The `file` argument is `Option GFile`:
`none` models a pointer failing the `G_IS_FILE (file)` check; `content_id`
is `Option String`: `none` models a NULL pointer, and the C check
`content_id && *content_id` additionally rejects the empty string.
On failure the C function returns NULL, modelled as `none`.
On success it returns the fresh struct together with the trace of
reference operations performed (`g_object_ref (file)`). -/
def tracker_extract_info_new (file : Option GFile) (content_id : Option String)
    (mimetype : Option String) (graph : Option String) (max_text : Int) :
    Option (TrackerExtractInfo × List REvent) :=
  match file with
  | none => none
  | some f =>
    match content_id with
    | none => none
    | some cid =>
      if cid = "" then none
      else
        some ({ resource := none
                file := f
                content_id := cid
                mimetype := mimetype
                graph := graph
                max_text := max_text
                ref_count := 1 }, [REvent.fileRef f])

/-- `tracker_extract_info_ref`: `g_atomic_int_inc (&info->ref_count)` and
returns the same object; with value semantics the updated struct. -/
def tracker_extract_info_ref (info : TrackerExtractInfo) : TrackerExtractInfo :=
  { info with ref_count := info.ref_count + 1 }

/-- `tracker_extract_info_unref`: decrements `ref_count`
(`g_atomic_int_dec_and_test`); when the decremented count is zero the
struct is destroyed (`none`) after unreffing the file, freeing the three
owned strings, and unreffing the resource if one is attached — in exactly
that order, mirrored in the emitted trace. Otherwise the struct survives
with the decremented count and no events are emitted. -/
def tracker_extract_info_unref (info : TrackerExtractInfo) :
    Option TrackerExtractInfo × List REvent :=
  if info.ref_count - 1 = 0 then
    (none,
      [REvent.fileUnref info.file,
       REvent.strFree (some info.content_id),
       REvent.strFree info.mimetype,
       REvent.strFree info.graph] ++
      (match info.resource with
       | some r => [REvent.resUnref r]
       | none => []))
  else
    (some { info with ref_count := info.ref_count - 1 }, [])

/-- `tracker_extract_info_get_file` (on a non-NULL info): returns
`info->file`. -/
def tracker_extract_info_get_file (info : TrackerExtractInfo) : GFile :=
  info.file

/-- `tracker_extract_info_get_content_id`: with a non-NULL `suffix`,
`g_strconcat (info->content_id, "/", suffix, NULL)`; with a NULL suffix,
`g_strdup (info->content_id)`. -/
def tracker_extract_info_get_content_id (info : TrackerExtractInfo)
    (suffix : Option String) : String :=
  match suffix with
  | some s => info.content_id ++ "/" ++ s
  | none => info.content_id

/-- `tracker_extract_info_get_content_id` with the struct threaded through
explicitly, to state that the body performs no write to `*info`: the C
function only reads `info->content_id`, so the outgoing state is the
incoming one. -/
def tracker_extract_info_get_content_id_st (info : TrackerExtractInfo)
    (suffix : Option String) : String × TrackerExtractInfo :=
  match suffix with
  | some s => (info.content_id ++ "/" ++ s, info)
  | none => (info.content_id, info)

/-- `tracker_extract_info_get_mimetype`: returns `info->mimetype`. -/
def tracker_extract_info_get_mimetype (info : TrackerExtractInfo) : Option String :=
  info.mimetype

/-- `tracker_extract_info_get_graph`: returns `info->graph`. -/
def tracker_extract_info_get_graph (info : TrackerExtractInfo) : Option String :=
  info.graph

/-- `tracker_extract_info_get_resource`: returns `info->resource`, NULL
(`none`) if `tracker_extract_info_set_resource` was not yet called. -/
def tracker_extract_info_get_resource (info : TrackerExtractInfo) :
    Option TrackerResource :=
  info.resource

/-- `tracker_extract_info_set_resource`: `g_object_ref (resource)` then
`info->resource = resource`. Note that the previous value of
`info->resource` is overwritten without being unreffed. -/
def tracker_extract_info_set_resource (info : TrackerExtractInfo)
    (resource : TrackerResource) : TrackerExtractInfo × List REvent :=
  ({ info with resource := some resource }, [REvent.resRef resource])

/-- `tracker_extract_info_get_max_text`: returns `info->max_text`. -/
def tracker_extract_info_get_max_text (info : TrackerExtractInfo) : Int :=
  info.max_text

/-- Number of times resource `r` is released (`g_object_unref`) in a
trace. -/
def countResUnref (r : TrackerResource) (evs : List REvent) : Nat :=
  evs.countP (fun e => e = REvent.resUnref r)

/-! ### Pointer-level variants

The C entry points take a possibly-NULL `TrackerExtractInfo *`. `none`
models a NULL pointer. For the functions guarded by
`g_return_val_if_fail (info != NULL, ...)` the NULL case is the guard's
early error return; for the unguarded ones (`get_resource`,
`set_resource`, `get_max_text`) a NULL argument dereferences NULL, which
can never succeed either. `Except Unit` separates the error path from
the normal return. -/

/-- Pointer-level `tracker_extract_info_get_file`. -/
def tracker_extract_info_get_file_c (info : Option TrackerExtractInfo) :
    Except Unit GFile :=
  match info with
  | none => Except.error ()
  | some i => Except.ok (tracker_extract_info_get_file i)

/-- Pointer-level `tracker_extract_info_get_content_id`. -/
def tracker_extract_info_get_content_id_c (info : Option TrackerExtractInfo)
    (suffix : Option String) : Except Unit String :=
  match info with
  | none => Except.error ()
  | some i => Except.ok (tracker_extract_info_get_content_id i suffix)

/-- Pointer-level `tracker_extract_info_get_mimetype`. -/
def tracker_extract_info_get_mimetype_c (info : Option TrackerExtractInfo) :
    Except Unit (Option String) :=
  match info with
  | none => Except.error ()
  | some i => Except.ok (tracker_extract_info_get_mimetype i)

/-- Pointer-level `tracker_extract_info_get_graph`. -/
def tracker_extract_info_get_graph_c (info : Option TrackerExtractInfo) :
    Except Unit (Option String) :=
  match info with
  | none => Except.error ()
  | some i => Except.ok (tracker_extract_info_get_graph i)

/-- Pointer-level `tracker_extract_info_get_resource` (no NULL guard in
the C code; a NULL pointer is dereferenced, so `none` can never return
normally). -/
def tracker_extract_info_get_resource_c (info : Option TrackerExtractInfo) :
    Except Unit (Option TrackerResource) :=
  match info with
  | none => Except.error ()
  | some i => Except.ok (tracker_extract_info_get_resource i)

/-- Pointer-level `tracker_extract_info_set_resource` (no NULL guard). -/
def tracker_extract_info_set_resource_c (info : Option TrackerExtractInfo)
    (resource : TrackerResource) :
    Except Unit (TrackerExtractInfo × List REvent) :=
  match info with
  | none => Except.error ()
  | some i => Except.ok (tracker_extract_info_set_resource i resource)

/-- Pointer-level `tracker_extract_info_get_max_text` (no NULL guard). -/
def tracker_extract_info_get_max_text_c (info : Option TrackerExtractInfo) :
    Except Unit Int :=
  match info with
  | none => Except.error ()
  | some i => Except.ok (tracker_extract_info_get_max_text i)

/-! ### Operation sequences over a live context -/

/-- One call into the library on a live context. -/
inductive CtxOp where
  | opRef
  | opUnref
  | opSetResource (r : TrackerResource)
  | opGetContentId (suffix : Option String)
  | opGetFile
  | opGetMimetype
  | opGetGraph
  | opGetResource
  | opGetMaxText
  deriving DecidableEq

/-- Effect of one call on the struct: `opUnref` may destroy it (`none`);
`opRef` and `opSetResource` update it; every accessor leaves it
unchanged (their C bodies contain no write to `*info`). -/
def ctxStep (info : TrackerExtractInfo) : CtxOp → Option TrackerExtractInfo
  | CtxOp.opRef => some (tracker_extract_info_ref info)
  | CtxOp.opUnref => (tracker_extract_info_unref info).1
  | CtxOp.opSetResource r => some (tracker_extract_info_set_resource info r).1
  | CtxOp.opGetContentId s => some (tracker_extract_info_get_content_id_st info s).2
  | CtxOp.opGetFile => some info
  | CtxOp.opGetMimetype => some info
  | CtxOp.opGetGraph => some info
  | CtxOp.opGetResource => some info
  | CtxOp.opGetMaxText => some info

/-- Run a sequence of calls; once the struct is destroyed the run stays
destroyed (any further use would be use-after-free). -/
def ctxRun (info : TrackerExtractInfo) : List CtxOp → Option TrackerExtractInfo
  | [] => some info
  | op :: ops =>
    match ctxStep info op with
    | none => none
    | some i => ctxRun i ops

/-- `n` successive `tracker_extract_info_ref` calls. -/
def refN : Nat → TrackerExtractInfo → TrackerExtractInfo
  | 0, info => info
  | n + 1, info => refN n (tracker_extract_info_ref info)

/-- `n` successive `tracker_extract_info_unref` calls, accumulating the
emitted trace; if destruction happens before the `n` calls are spent the
run stops there (further unrefs would be use-after-free). -/
def unrefN : Nat → TrackerExtractInfo → Option TrackerExtractInfo × List REvent
  | 0, info => (some info, [])
  | n + 1, info =>
    match tracker_extract_info_unref info with
    | (none, ev) => (none, ev)
    | (some i, ev) =>
      match unrefN n i with
      | (res, ev2) => (res, ev ++ ev2)

/-! ### Concrete contexts used by witnesses -/

/-- A concrete context as produced by a successful
`tracker_extract_info_new (some 5) (some "h:deadbeef") (some "audio/mpeg")
(some "") 0`. -/
def sampleCtx : TrackerExtractInfo :=
  { resource := none
    file := 5
    content_id := "h:deadbeef"
    mimetype := some "audio/mpeg"
    graph := some ""
    max_text := 0
    ref_count := 1 }

/-- A concrete context whose base content identifier is `"abc123"`. -/
def sampleAbc : TrackerExtractInfo :=
  { resource := none
    file := 7
    content_id := "abc123"
    mimetype := none
    graph := none
    max_text := 0
    ref_count := 1 }

/-! ### Claims -/

/-- C2: `tracker_extract_info_new` returns NULL when the file argument is
not a valid file handle or when `content_id` is absent or empty; on
success the returned context has `ref_count = 1` and no attached
resource, so an immediate `get_resource` returns none. -/
theorem new_rejects_invalid_and_returns_fresh
    (file : Option GFile) (content_id mimetype graph : Option String)
    (max_text : Int) :
    ((file = none ∨ content_id = none ∨ content_id = some "") →
      tracker_extract_info_new file content_id mimetype graph max_text = none) ∧
    (∀ ctx ev,
      tracker_extract_info_new file content_id mimetype graph max_text
        = some (ctx, ev) →
      ctx.ref_count = 1 ∧ ctx.resource = none ∧
      tracker_extract_info_get_resource ctx = none) := by
  constructor
  · rintro (rfl | rfl | rfl)
    · rfl
    · cases file <;> rfl
    · cases file
      · rfl
      · simp [tracker_extract_info_new]
  · intro ctx ev h
    cases file with
    | none => simp [tracker_extract_info_new] at h
    | some f =>
      cases content_id with
      | none => simp [tracker_extract_info_new] at h
      | some cid =>
        by_cases hc : cid = ""
        · simp [tracker_extract_info_new, hc] at h
        · simp [tracker_extract_info_new, hc] at h
          obtain ⟨hctx, -⟩ := h
          subst hctx
          exact ⟨rfl, rfl, rfl⟩

/-- Witness for C2: an invalid-file call returns none, and the concrete
successful call yields `ref_count = 1` and no resource. -/
theorem new_rejects_invalid_and_returns_fresh_witness :
    tracker_extract_info_new none (some "h:deadbeef") (some "audio/mpeg")
      (some "") 0 = none ∧
    (sampleCtx.ref_count = 1 ∧ sampleCtx.resource = none ∧
      tracker_extract_info_get_resource sampleCtx = none) :=
  ⟨(new_rejects_invalid_and_returns_fresh none (some "h:deadbeef")
      (some "audio/mpeg") (some "") 0).1 (Or.inl rfl),
   (new_rejects_invalid_and_returns_fresh (some 5) (some "h:deadbeef")
      (some "audio/mpeg") (some "") 0).2 sampleCtx [REvent.fileRef 5]
      (by decide)⟩

/-- C3: `tracker_extract_info_get_content_id` returns a copy of the base
content identifier when the suffix is NULL, and the base identifier, the
separator `"/"` and the suffix when it is present; with base `"abc123"`
and suffix `"3"` it yields `"abc123/3"`. -/
theorem get_content_id_derivation (info : TrackerExtractInfo) (sfx : String) :
    tracker_extract_info_get_content_id info none = info.content_id ∧
    tracker_extract_info_get_content_id info (some sfx)
      = info.content_id ++ "/" ++ sfx ∧
    (info.content_id = "abc123" →
      tracker_extract_info_get_content_id info (some "3") = "abc123/3") := by
  refine ⟨rfl, rfl, ?_⟩
  intro h
  show info.content_id ++ "/" ++ "3" = "abc123/3"
  rw [h]
  decide

/-- Witness for C3 at a context whose base identifier is `"abc123"`. -/
theorem get_content_id_derivation_witness :
    tracker_extract_info_get_content_id sampleAbc (some "3") = "abc123/3" :=
  (get_content_id_derivation sampleAbc "3").2.2 rfl

/-- C5: `tracker_extract_info_get_content_id` is pure and deterministic:
the call leaves every field of the context unchanged (the C body performs
no write through `info`), and a second call on the state left by the
first returns the same string. -/
theorem get_content_id_pure_deterministic (info : TrackerExtractInfo)
    (sfx : Option String) :
    (tracker_extract_info_get_content_id_st info sfx).2 = info ∧
    (tracker_extract_info_get_content_id_st
        (tracker_extract_info_get_content_id_st info sfx).2 sfx).1
      = (tracker_extract_info_get_content_id_st info sfx).1 ∧
    (tracker_extract_info_get_content_id_st
        (tracker_extract_info_get_content_id_st info sfx).2 sfx).2 = info := by
  cases sfx <;> exact ⟨rfl, rfl, rfl⟩

/-- C9: a present but empty suffix is distinguished from an absent one:
`get_content_id` with suffix `""` returns the base identifier followed by
the separator `"/"`, which differs from the absent-suffix result; no
normalization of any suffix is performed (the result is verbatim
`content_id ++ "/" ++ suffix`). -/
theorem get_content_id_empty_suffix (info : TrackerExtractInfo) :
    tracker_extract_info_get_content_id info (some "") = info.content_id ++ "/" ∧
    tracker_extract_info_get_content_id info (some "")
      ≠ tracker_extract_info_get_content_id info none ∧
    (∀ sfx : String, tracker_extract_info_get_content_id info (some sfx)
      = info.content_id ++ "/" ++ sfx) := by
  refine ⟨?_, ?_, fun _ => rfl⟩
  · show info.content_id ++ "/" ++ "" = info.content_id ++ "/"
    simp
  show info.content_id ++ "/" ++ "" ≠ info.content_id
  intro h
  have h2 := congrArg String.length h
  rw [String.length_append, String.length_append] at h2
  have h3 : ("/" : String).length = 1 := rfl
  have h4 : ("" : String).length = 0 := rfl
  omega

/-- C10: `tracker_extract_info_set_resource` writes only the `resource`
field; `file`, `content_id`, `mimetype`, `graph`, `max_text` and
`ref_count` are unchanged. -/
theorem set_resource_frame (info : TrackerExtractInfo) (r : TrackerResource) :
    (tracker_extract_info_set_resource info r).1.resource = some r ∧
    (tracker_extract_info_set_resource info r).1.file = info.file ∧
    (tracker_extract_info_set_resource info r).1.content_id = info.content_id ∧
    (tracker_extract_info_set_resource info r).1.mimetype = info.mimetype ∧
    (tracker_extract_info_set_resource info r).1.graph = info.graph ∧
    (tracker_extract_info_set_resource info r).1.max_text = info.max_text ∧
    (tracker_extract_info_set_resource info r).1.ref_count = info.ref_count :=
  ⟨rfl, rfl, rfl, rfl, rfl, rfl, rfl⟩

/-- C6: over a validly constructed context (a non-NULL pointer produced by
a successful `tracker_extract_info_new`), `get_file`, `get_content_id`
(with any suffix), `get_mimetype`, `get_graph`, `get_resource`,
`set_resource` and `get_max_text` all return through their normal path:
none takes an error return. -/
theorem valid_context_ops_total
    (file : Option GFile) (content_id mimetype graph : Option String)
    (max_text : Int) (ctx : TrackerExtractInfo) (ev : List REvent)
    (_h : tracker_extract_info_new file content_id mimetype graph max_text
      = some (ctx, ev)) (sfx : Option String) (r : TrackerResource) :
    tracker_extract_info_get_file_c (some ctx)
      = Except.ok (tracker_extract_info_get_file ctx) ∧
    tracker_extract_info_get_content_id_c (some ctx) sfx
      = Except.ok (tracker_extract_info_get_content_id ctx sfx) ∧
    tracker_extract_info_get_mimetype_c (some ctx)
      = Except.ok (tracker_extract_info_get_mimetype ctx) ∧
    tracker_extract_info_get_graph_c (some ctx)
      = Except.ok (tracker_extract_info_get_graph ctx) ∧
    tracker_extract_info_get_resource_c (some ctx)
      = Except.ok (tracker_extract_info_get_resource ctx) ∧
    tracker_extract_info_set_resource_c (some ctx) r
      = Except.ok (tracker_extract_info_set_resource ctx r) ∧
    tracker_extract_info_get_max_text_c (some ctx)
      = Except.ok (tracker_extract_info_get_max_text ctx) :=
  ⟨rfl, rfl, rfl, rfl, rfl, rfl, rfl⟩

/-- Witness for C6 at the concrete successful construction. -/
theorem valid_context_ops_total_witness :
    tracker_extract_info_get_file_c (some sampleCtx)
      = Except.ok (tracker_extract_info_get_file sampleCtx) ∧
    tracker_extract_info_get_content_id_c (some sampleCtx) (some "3")
      = Except.ok (tracker_extract_info_get_content_id sampleCtx (some "3")) ∧
    tracker_extract_info_get_mimetype_c (some sampleCtx)
      = Except.ok (tracker_extract_info_get_mimetype sampleCtx) ∧
    tracker_extract_info_get_graph_c (some sampleCtx)
      = Except.ok (tracker_extract_info_get_graph sampleCtx) ∧
    tracker_extract_info_get_resource_c (some sampleCtx)
      = Except.ok (tracker_extract_info_get_resource sampleCtx) ∧
    tracker_extract_info_set_resource_c (some sampleCtx) 9
      = Except.ok (tracker_extract_info_set_resource sampleCtx 9) ∧
    tracker_extract_info_get_max_text_c (some sampleCtx)
      = Except.ok (tracker_extract_info_get_max_text sampleCtx) :=
  valid_context_ops_total (some 5) (some "h:deadbeef") (some "audio/mpeg")
    (some "") 0 sampleCtx [REvent.fileRef 5] (by decide) (some "3") 9

/-! ### C1: replacing an attached resource -/

/-- The complete reference trace of the C1 scenario: construct (modelled
state `sampleCtx`), attach resource 10, attach resource 20, then drop the
single reference so the struct is destroyed. -/
def replaceTrace : List REvent :=
  (tracker_extract_info_set_resource sampleCtx 10).2 ++
  (tracker_extract_info_set_resource
    (tracker_extract_info_set_resource sampleCtx 10).1 20).2 ++
  (tracker_extract_info_unref
    (tracker_extract_info_set_resource
      (tracker_extract_info_set_resource sampleCtx 10).1 20).1).2

/-- Counterexample to C1: in the concrete run `set_resource(ctx, 10)`,
`set_resource(ctx, 20)`, final `unref`, `get_resource` does return 20,
but resource 10 is never released — it is released zero times in the
whole trace, not exactly once: `set_resource` overwrites the previous
resource pointer without unreffing it. -/
theorem set_resource_release_counterexample :
    tracker_extract_info_new (some 5) (some "h:deadbeef") (some "audio/mpeg")
      (some "") 0 = some (sampleCtx, [REvent.fileRef 5]) ∧
    tracker_extract_info_get_resource
      (tracker_extract_info_set_resource
        (tracker_extract_info_set_resource sampleCtx 10).1 20).1 = some 20 ∧
    countResUnref 10 replaceTrace = 0 ∧
    ¬ countResUnref 10 replaceTrace = 1 := by
  refine ⟨by decide, rfl, by decide, by decide⟩

/-- C1 as amended: after `set_resource(ctx, R1)` then `set_resource(ctx,
R2)`, `get_resource` returns R2, but R1 is never released (zero releases
in the whole lifecycle trace, so the reference taken on R1 leaks); only
R2 is released, exactly once, when the last context reference is
dropped. -/
theorem set_resource_latest_wins_leaks_previous
    (info : TrackerExtractInfo) (r1 r2 : TrackerResource)
    (h1 : info.ref_count = 1) (h2 : r1 ≠ r2) :
    tracker_extract_info_get_resource
      (tracker_extract_info_set_resource
        (tracker_extract_info_set_resource info r1).1 r2).1 = some r2 ∧
    (tracker_extract_info_unref
      (tracker_extract_info_set_resource
        (tracker_extract_info_set_resource info r1).1 r2).1).1 = none ∧
    countResUnref r1
      ((tracker_extract_info_set_resource info r1).2 ++
       (tracker_extract_info_set_resource
         (tracker_extract_info_set_resource info r1).1 r2).2 ++
       (tracker_extract_info_unref
         (tracker_extract_info_set_resource
           (tracker_extract_info_set_resource info r1).1 r2).1).2) = 0 ∧
    countResUnref r2
      ((tracker_extract_info_set_resource info r1).2 ++
       (tracker_extract_info_set_resource
         (tracker_extract_info_set_resource info r1).1 r2).2 ++
       (tracker_extract_info_unref
         (tracker_extract_info_set_resource
           (tracker_extract_info_set_resource info r1).1 r2).1).2) = 1 := by
  have hne : ¬ (REvent.resUnref r2 = REvent.resUnref r1) := by
    intro h
    exact h2 (REvent.resUnref.inj h).symm
  refine ⟨rfl, ?_, ?_, ?_⟩
  · simp [tracker_extract_info_set_resource, tracker_extract_info_unref, h1]
  · simp [tracker_extract_info_set_resource, tracker_extract_info_unref, h1,
      countResUnref, List.countP_cons, List.countP_append, hne]
  · simp [tracker_extract_info_set_resource, tracker_extract_info_unref, h1,
      countResUnref, List.countP_cons, List.countP_append]

/-! ### C4: reference-count lifecycle -/

/-- `n` refs add `n` to the reference count and change nothing else. -/
theorem refN_eq (n : Nat) (info : TrackerExtractInfo) :
    refN n info = { info with ref_count := info.ref_count + n } := by
  induction n generalizing info with
  | zero => simp [refN]
  | succ n ih =>
    rw [refN, ih]
    simp [tracker_extract_info_ref]
    omega

/-- While more references remain than releases performed, `unrefN` only
subtracts from the count and emits nothing. -/
theorem unrefN_alive (n : Nat) (info : TrackerExtractInfo)
    (h : 1 ≤ info.ref_count) :
    unrefN n { info with ref_count := info.ref_count + n } = (some info, []) := by
  induction n generalizing info with
  | zero => simp [unrefN]
  | succ n ih =>
    rw [unrefN]
    rw [show ({ info with ref_count := info.ref_count + (n + 1 : Nat) }
        : TrackerExtractInfo)
      = { info with ref_count := info.ref_count + n + 1 } by simp; omega]
    rw [tracker_extract_info_unref]
    rw [if_neg (by simp; omega)]
    simp only [Int.add_sub_cancel]
    simp [ih info h]

/-- The events emitted when the struct is destroyed: unref the file, free
the three owned strings, unref the attached resource if any. -/
def destroyEvents (info : TrackerExtractInfo) : List REvent :=
  [REvent.fileUnref info.file,
   REvent.strFree (some info.content_id),
   REvent.strFree info.mimetype,
   REvent.strFree info.graph] ++
  (match info.resource with
   | some r => [REvent.resUnref r]
   | none => [])

/-- Exhausting all references destroys the struct and emits exactly the
destruction events. -/
theorem unrefN_exhaust (n : Nat) (info : TrackerExtractInfo)
    (h : info.ref_count = 1) :
    unrefN (n + 1) { info with ref_count := info.ref_count + n }
      = (none, destroyEvents info) := by
  induction n generalizing info with
  | zero =>
    rw [unrefN]
    have hst : ({ info with ref_count := info.ref_count + (0 : Nat) } :
        TrackerExtractInfo) = info := by simp
    rw [hst, tracker_extract_info_unref, if_pos (by omega)]
    rfl
  | succ n ih =>
    rw [unrefN]
    rw [tracker_extract_info_unref]
    rw [if_neg (by simp; omega)]
    have hst : ({ ({ info with ref_count := info.ref_count + (n + 1 : Nat) } :
          TrackerExtractInfo) with
        ref_count := ({ info with ref_count := info.ref_count + (n + 1 : Nat) } :
          TrackerExtractInfo).ref_count - 1 } : TrackerExtractInfo)
        = { info with ref_count := info.ref_count + n } := by
      simp
      omega
    rw [hst]
    have := ih info h
    simp [this]

/-- C4: `ref` followed by `unref` returns the context to its pre-`ref`
reference count (the very struct it started from) with no releases; from
a freshly created context (`ref_count = 1`), after `N` refs the struct
survives `N` unrefs unchanged, and the `N + 1`-st unref destroys it,
releasing the file reference, all owned strings, and the attached
resource (if any). -/
theorem ref_unref_lifecycle (info : TrackerExtractInfo) (N : Nat)
    (h : 1 ≤ info.ref_count) :
    tracker_extract_info_unref (tracker_extract_info_ref info)
      = (some info, []) ∧
    (info.ref_count = 1 →
      unrefN N (refN N info) = (some info, []) ∧
      unrefN (N + 1) (refN N info) = (none, destroyEvents info)) := by
  constructor
  · rw [tracker_extract_info_ref, tracker_extract_info_unref]
    rw [if_neg (by simp; omega)]
    simp
  · intro h1
    rw [refN_eq]
    exact ⟨unrefN_alive N info h, unrefN_exhaust N info h1⟩

/-- Witness for C4 at the concrete fresh context and `N = 2`. -/
theorem ref_unref_lifecycle_witness :
    tracker_extract_info_unref (tracker_extract_info_ref sampleCtx)
      = (some sampleCtx, []) ∧
    unrefN 2 (refN 2 sampleCtx) = (some sampleCtx, []) ∧
    unrefN 3 (refN 2 sampleCtx) = (none, destroyEvents sampleCtx) :=
  ⟨(ref_unref_lifecycle sampleCtx 2 (by decide)).1,
   ((ref_unref_lifecycle sampleCtx 2 (by decide)).2 rfl).1,
   ((ref_unref_lifecycle sampleCtx 2 (by decide)).2 rfl).2⟩

/-! ### C7: immutability of the content identifier -/

/-- A single surviving library call never changes `content_id`: `ref`,
`set_resource` and a non-final `unref` write other fields only, and every
accessor performs no write at all. -/
theorem ctxStep_content_id (info info2 : TrackerExtractInfo) (op : CtxOp)
    (h : ctxStep info op = some info2) : info2.content_id = info.content_id := by
  cases op with
  | opRef =>
    simp [ctxStep, tracker_extract_info_ref] at h
    subst h; rfl
  | opUnref =>
    rw [ctxStep, tracker_extract_info_unref] at h
    by_cases hc : info.ref_count - 1 = 0
    · rw [if_pos hc] at h; cases h
    · rw [if_neg hc] at h
      simp at h
      subst h; rfl
  | opSetResource r =>
    simp [ctxStep, tracker_extract_info_set_resource] at h
    subst h; rfl
  | opGetContentId s =>
    have : (tracker_extract_info_get_content_id_st info s).2 = info := by
      cases s <;> rfl
    simp [ctxStep, this] at h
    subst h; rfl
  | opGetFile => simp [ctxStep] at h; subst h; rfl
  | opGetMimetype => simp [ctxStep] at h; subst h; rfl
  | opGetGraph => simp [ctxStep] at h; subst h; rfl
  | opGetResource => simp [ctxStep] at h; subst h; rfl
  | opGetMaxText => simp [ctxStep] at h; subst h; rfl

/-- Any sequence of surviving library calls leaves `content_id`
unchanged. -/
theorem ctxRun_content_id (ops : List CtxOp) (info info2 : TrackerExtractInfo)
    (h : ctxRun info ops = some info2) : info2.content_id = info.content_id := by
  induction ops generalizing info with
  | nil =>
    simp [ctxRun] at h
    subst h; rfl
  | cons op ops ih =>
    rw [ctxRun] at h
    cases hstep : ctxStep info op with
    | none => rw [hstep] at h; cases h
    | some i =>
      rw [hstep] at h
      exact (ih i h).trans (ctxStep_content_id info i op hstep)

/-- C7: `content_id` is set exactly once, at construction: a successful
`tracker_extract_info_new` stores exactly the caller-supplied (non-empty)
identifier, and no sequence of surviving library calls (`ref`, non-final
`unref`, `set_resource`, `get_content_id`, any accessor) ever changes it;
after any such sequence the accessor still reads back the constructed
value. -/
theorem content_id_set_once_immutable
    (file : Option GFile) (cid mimetype graph : Option String)
    (max_text : Int) (ctx : TrackerExtractInfo) (ev : List REvent)
    (h : tracker_extract_info_new file cid mimetype graph max_text
      = some (ctx, ev))
    (ops : List CtxOp) (ctx2 : TrackerExtractInfo)
    (h2 : ctxRun ctx ops = some ctx2) :
    cid = some ctx.content_id ∧ ctx.content_id ≠ "" ∧
    ctx2.content_id = ctx.content_id ∧
    tracker_extract_info_get_content_id ctx2 none = ctx.content_id := by
  have hbase : cid = some ctx.content_id ∧ ctx.content_id ≠ "" := by
    cases file with
    | none => simp [tracker_extract_info_new] at h
    | some f =>
      cases cid with
      | none => simp [tracker_extract_info_new] at h
      | some c =>
        by_cases hc : c = ""
        · simp [tracker_extract_info_new, hc] at h
        · simp [tracker_extract_info_new, hc] at h
          obtain ⟨hctx, -⟩ := h
          subst hctx
          exact ⟨rfl, hc⟩
  have hrun := ctxRun_content_id ops ctx ctx2 h2
  exact ⟨hbase.1, hbase.2, hrun, hrun⟩

/-- Witness for C7: the concrete construction followed by a ref, a
resource attachment, an identifier read and a non-final unref leaves the
content identifier untouched. -/
theorem content_id_set_once_immutable_witness :
    some "h:deadbeef" = some sampleCtx.content_id ∧
    sampleCtx.content_id ≠ "" ∧
    (tracker_extract_info_ref sampleCtx).content_id = sampleCtx.content_id ∧
    tracker_extract_info_get_content_id (tracker_extract_info_ref sampleCtx)
      none = sampleCtx.content_id := by
  have h := content_id_set_once_immutable (some 5) (some "h:deadbeef")
    (some "audio/mpeg") (some "") 0 sampleCtx [REvent.fileRef 5] (by decide)
    [CtxOp.opRef, CtxOp.opSetResource 9, CtxOp.opGetContentId (some "3"),
     CtxOp.opUnref]
    { sampleCtx with resource := some 9, ref_count := 1 } (by decide)
  exact ⟨h.1, h.2.1, rfl, rfl⟩

/-- Witness for the amended C1 at the concrete run: resources 10 and 20
on the fresh context. -/
theorem set_resource_latest_wins_leaks_previous_witness :
    tracker_extract_info_get_resource
      (tracker_extract_info_set_resource
        (tracker_extract_info_set_resource sampleCtx 10).1 20).1 = some 20 ∧
    (tracker_extract_info_unref
      (tracker_extract_info_set_resource
        (tracker_extract_info_set_resource sampleCtx 10).1 20).1).1 = none ∧
    countResUnref 10
      ((tracker_extract_info_set_resource sampleCtx 10).2 ++
       (tracker_extract_info_set_resource
         (tracker_extract_info_set_resource sampleCtx 10).1 20).2 ++
       (tracker_extract_info_unref
         (tracker_extract_info_set_resource
           (tracker_extract_info_set_resource sampleCtx 10).1 20).1).2) = 0 ∧
    countResUnref 20
      ((tracker_extract_info_set_resource sampleCtx 10).2 ++
       (tracker_extract_info_set_resource
         (tracker_extract_info_set_resource sampleCtx 10).1 20).2 ++
       (tracker_extract_info_unref
         (tracker_extract_info_set_resource
           (tracker_extract_info_set_resource sampleCtx 10).1 20).1).2) = 1 :=
  set_resource_latest_wins_leaks_previous sampleCtx 10 20 (by decide) (by decide)
